import Mathlib

/-!
Shallow embedding of the AdSmartX Prebid bid adapter
(src/modules/adsmartxBidAdapter.js) and proofs about its
validation, request-building, response-interpretation and
user-sync logic.

JavaScript values are modelled explicitly: a field that can be
absent/undefined, null, or carry a value is a `JsOpt`; fields for
which absent/undefined and null behave identically in the code are
collapsed into `Option`.  Thrown `TypeError`s are modelled with
`Except`.
-/

namespace AdsmartX

/-- A JavaScript field value: absent/undefined, null, or a value.
`undef` covers both a missing property and an explicit `undefined`,
which the adapter code never distinguishes. -/
inductive JsOpt (α : Type) where
  | undef
  | null
  | val (a : α)
  deriving Repr, DecidableEq

/-- The value of `video.mimes` as the validator sees it: missing
(absent, null or another falsy non-array), present but not an array,
or an actual array of MIME strings. -/
inductive MimesVal where
  | missing
  | nonList
  | arr (l : List String)
  deriving Repr, DecidableEq

/-- A declared video format spec (`mediaTypes.video`). `w`/`h` can be
absent, null, or numbers; remaining streaming parameters pass through
verbatim and are kept opaque. -/
structure VideoSpec where
  mimes : MimesVal
  w : JsOpt Int
  h : JsOpt Int
  rest : List (String × String) := []
  deriving Repr, DecidableEq

/-- A declared banner format spec (`mediaTypes.banner`); `sizes` may be
missing (in which case `sizes.map` in the builder throws). Each size is
a JavaScript array of numbers. -/
structure BannerSpec where
  sizes : Option (List (List Int))
  deriving Repr, DecidableEq

/-- The `mediaTypes` object of a bid request; each format spec is
independently present or absent. -/
structure MediaTypes where
  banner : Option BannerSpec := none
  video : Option VideoSpec := none
  deriving Repr, DecidableEq

/-- The publisher-supplied `params` bag of a bid request. -/
structure BidParams where
  bidfloor : Option Int := none
  testMode : Option Int := none
  sspId : Option String := none
  siteId : Option String := none
  sspUserId : Option String := none
  deriving Repr, DecidableEq

/-- One demand-request descriptor (a Prebid `bidRequest`). -/
structure BidRequest where
  bidId : Option String := none
  mediaTypes : Option MediaTypes := none
  params : Option BidParams := none
  deriving Repr, DecidableEq

/-- Modelled from the spec: the media-type name constants `BANNER` and
`VIDEO` imported from src/mediaTypes.js, which is absent from src/;
per the spec they are the literal strings used as media-type names. -/
def BANNER : String := "banner"

/-- Modelled from the spec: see `BANNER`. -/
def VIDEO : String := "video"

def BIDDER_CODE : String := "adsmartx"
def ENDPOINT_URL : String := "https://ads.adsmartx.com/ads/rtb/prebid/js"
def DEFAULT_CURRENCY : String := "USD"
def DEFAULT_TTL : Int := 60

/-- `!video.mimes || !Array.isArray(video.mimes) || video.mimes.length === 0`:
every non-array value is rejected, an array only if empty. This is the
negation of that disjunction. -/
def mimesOk : MimesVal → Bool
  | .arr l => !l.isEmpty
  | _ => false

/-- `video.w != null && video.w <= 0` (and the same for `h`): a
dimension is bad only when present, non-null and ≤ 0. -/
def badDim : JsOpt Int → Bool
  | .val w => decide (w ≤ 0)
  | _ => false

/-- `isBidRequestValid` from src/modules/adsmartxBidAdapter.js:
video-specific checks run only when `mediaTypes?.[VIDEO]` is present;
everything else is valid. -/
def isBidRequestValid (bid : BidRequest) : Bool :=
  match bid.mediaTypes with
  | none => true
  | some mt =>
    match mt.video with
    | none => true
    | some video =>
      if !mimesOk video.mimes then false
      else if badDim video.w then false
      else if badDim video.h then false
      else true

/-! ## Request builder -/

/-- A thrown JavaScript error (the adapter can only hit `TypeError`s,
from property access on `undefined`). -/
inductive JsError where
  | typeError
  deriving Repr, DecidableEq

/-- One `{w, h}` entry of `imp.banner.format`, produced by destructuring
`([w, h])` from a size array: index 0 and 1, `undefined` when short. -/
structure FormatEntry where
  w : Option Int
  h : Option Int
  deriving Repr, DecidableEq

/-- `imp.banner`. -/
structure BannerObj where
  format : List FormatEntry
  deriving Repr, DecidableEq

/-- One outbound impression object. -/
structure Imp where
  id : Option String := none
  bidfloor : Option Int := none
  banner : Option BannerObj := none
  video : Option VideoSpec := none
  deriving Repr, DecidableEq

/-- Modelled from the spec: the ortbConverter library's `buildImp`
(libraries/ortbConverter/converter.js), absent from src/; per §4.2
step 1 it populates the protocol's base fields of one impression (the
correlation id) and nothing media-type-specific. -/
def buildImp (bid : BidRequest) : Imp :=
  { id := bid.bidId }

/-- The `if (bidRequest.params)` block of the adapter's `imp` override:
attach `bidfloor` only when params exist and carry a truthy floor. -/
def applyBidfloor (imp0 : Imp) (params : Option BidParams) : Imp :=
  match params with
  | some p =>
    match p.bidfloor with
    | some f => if f ≠ 0 then { imp0 with bidfloor := some f } else imp0
    | none => imp0
  | none => imp0

/-- The adapter's `imp` override: base impression, then `bidfloor` when
params carry a truthy one, then `banner` from the declared sizes, else
`video` as a structural copy of the video spec. Accessing
`mediaTypes[BANNER]` on an absent `mediaTypes`, or `.sizes.map` on an
absent `sizes`, throws a `TypeError`. -/
def impFn (bid : BidRequest) : Except JsError Imp :=
  let imp1 := applyBidfloor (buildImp bid) bid.params
  match bid.mediaTypes with
  | none => .error .typeError
  | some mt =>
    match mt.banner with
    | some b =>
      match b.sizes with
      | none => .error .typeError
      | some sizes =>
        let fmt : List FormatEntry := sizes.map (fun s => { w := s.get? 0, h := s.get? 1 })
        .ok { imp1 with banner := some { format := fmt } }
    | none =>
      match mt.video with
      | some v => .ok { imp1 with video := some v }
      | none => .ok imp1

/-- `request.ext`. -/
structure RequestExt where
  test : Option Int := none
  sspId : Option String := none
  siteId : Option String := none
  deriving Repr, DecidableEq

/-- `request.regs.ext`. -/
structure RegsExt where
  gdpr : Option Int := none
  us_privacy : Option String := none
  deriving Repr, DecidableEq

/-- `request.regs`; whenever the adapter creates it, it also creates
`regs.ext`. -/
structure Regs where
  ext : RegsExt := {}
  deriving Repr, DecidableEq

/-- `request.user.ext`: the `consent` key is always assigned when the
user block is created, possibly with value `undefined`. -/
structure UserExt where
  consent : JsOpt String
  deriving Repr, DecidableEq

/-- `request.user`. -/
structure UserObj where
  ext : UserExt
  deriving Repr, DecidableEq

/-- The outbound OpenRTB-style request. -/
structure ORTBRequest where
  imp : List Imp
  cur : List String := []
  tmax : Option Int := none
  test : Int := 0
  ext : Option RequestExt := none
  regs : Option Regs := none
  user : Option UserObj := none
  deriving Repr, DecidableEq

/-- The GDPR consent object of the auction context, as the adapter
reads it: truthiness of `gdprApplies` and the raw consent string
(possibly undefined). -/
structure GdprConsent where
  gdprApplies : Bool
  consentString : JsOpt String
  deriving Repr, DecidableEq

/-- `ortb2.user`. -/
structure Ortb2User where
  id : Option String := none
  deriving Repr, DecidableEq

/-- `ortb2` first-party data. -/
structure Ortb2 where
  user : Option Ortb2User := none
  deriving Repr, DecidableEq

/-- The auction context (`bidderRequest`). `bids = none` models a
missing or non-array `bids` property. -/
structure BidderRequest where
  timeout : Option Int := none
  test : Option Int := none
  bids : Option (List BidRequest) := none
  gdprConsent : Option GdprConsent := none
  uspConsent : Option String := none
  ortb2 : Option Ortb2 := none
  deriving Repr, DecidableEq

/-- Modelled from the spec: the ortbConverter library's `buildRequest`
(libraries/ortbConverter/converter.js), absent from src/; it assembles
the impression list into a request skeleton whose top-level fields are
then set by the adapter's `request` override (§4.2 step 2). -/
def buildRequest (imps : List Imp) : ORTBRequest :=
  { imp := imps }

/-- `bid.params && bid.params.testMode === 1`. -/
def hasTestMode1 (b : BidRequest) : Bool :=
  match b.params with
  | some p => p.testMode = some 1
  | none => false

/-- `bid.params && bid.params.sspId` (truthy, i.e. a non-empty string). -/
def hasSspId (b : BidRequest) : Bool :=
  match b.params with
  | some p => match p.sspId with
    | some s => !(s = "")
    | none => false
  | none => false

/-- `bid.params && bid.params.siteId` (truthy, i.e. a non-empty string). -/
def hasSiteId (b : BidRequest) : Bool :=
  match b.params with
  | some p => match p.siteId with
    | some s => !(s = "")
    | none => false
  | none => false

/-- `request.ext = request.ext || {}`. -/
def extOrEmpty (e : Option RequestExt) : RequestExt :=
  e.getD {}

/-- The first lines of the adapter's `request` override: the request
skeleton from the library's `buildRequest`, then `cur`, `tmax` and
`test` (`bidderRequest.test || 0`). -/
def setTopLevel (imps : List Imp) (br : BidderRequest) : ORTBRequest :=
  let req := buildRequest imps
  { req with
    cur := [DEFAULT_CURRENCY],
    tmax := br.timeout,
    test := match br.test with
      | some t => if t ≠ 0 then t else 0
      | none => 0 }

/-- The `if (Array.isArray(bidderRequest.bids))` block: the three
extension scans (`some` for testMode, `find` for sspId and siteId),
each lazily creating `request.ext`. -/
def applyExtScans (req : ORTBRequest) (br : BidderRequest) : ORTBRequest :=
  match br.bids with
  | none => req
  | some bids =>
    let req :=
      if bids.any hasTestMode1 then
        { req with ext := some { extOrEmpty req.ext with test := some 1 } }
      else req
    let req :=
      match bids.find? hasSspId with
      | some b =>
        let e := extOrEmpty req.ext
        { req with ext := some { e with sspId := b.params.bind (·.sspId) } }
      | none => req
    match bids.find? hasSiteId with
    | some b =>
      let e := extOrEmpty req.ext
      { req with ext := some { e with siteId := b.params.bind (·.siteId) } }
    | none => req

/-- The `if (bidderRequest.gdprConsent)` block: regulatory block with
the gdpr flag, user block with the raw consent string. -/
def applyGdpr (req : ORTBRequest) (br : BidderRequest) : ORTBRequest :=
  match br.gdprConsent with
  | some g => { req with
      regs := some { ext := { gdpr := some (if g.gdprApplies then 1 else 0) } },
      user := some { ext := { consent := g.consentString } } }
  | none => req

/-- The `if (bidderRequest.uspConsent)` block: ensures `regs` and
`regs.ext` exist and sets the USP field. -/
def applyUsp (req : ORTBRequest) (br : BidderRequest) : ORTBRequest :=
  match br.uspConsent with
  | some u =>
    if u ≠ "" then
      let r := req.regs.getD {}
      { req with regs := some { r with ext := { r.ext with us_privacy := some u } } }
    else req
  | none => req

/-- The adapter's `request` override: sets `cur`, `tmax`, `test`, the
three extension scans over `bidderRequest.bids`, the GDPR regulatory
and user blocks, and the USP regulatory field, in source order. -/
def requestFn (imps : List Imp) (br : BidderRequest) : ORTBRequest :=
  applyUsp (applyGdpr (applyExtScans (setTopLevel imps br) br) br) br

/-- Modelled from the spec: the impression loop of the ortbConverter
library's `toORTB` (libraries/ortbConverter/converter.js), absent from
src/; it builds one impression per descriptor in order through the
adapter's `imp` override; a `TypeError` thrown while building an
impression propagates to the caller. -/
def mapImps : List BidRequest → Except JsError (List Imp)
  | [] => .ok []
  | b :: bs => do
    let i ← impFn b
    let rest ← mapImps bs
    pure (i :: rest)

/-- Modelled from the spec: see `mapImps`; `toORTB` assembles the
impressions and the top-level request through the adapter's two
overrides. -/
def toORTB (bids : List BidRequest) (br : BidderRequest) : Except JsError ORTBRequest := do
  let imps ← mapImps bids
  pure (requestFn imps br)

/-- The module-level `syncParams` scratch state (the Sync-Parameter
Cache); initially `{}`. -/
structure SyncParams where
  sspId : Option String := none
  siteId : Option String := none
  sspUserId : Option String := none
  deriving Repr, DecidableEq

/-- Modelled from the spec: the `deepAccess` utility (src/utils.js),
absent from src/; it reads `ortb2.user.id` from the context, yielding
nothing when any step of the path is absent. -/
def ortb2UserId (br : BidderRequest) : Option String :=
  (br.ortb2.bind (·.user)).bind (·.id)

/-- `getPublisherUserId`: params.sspUserId if truthy, else a truthy
`ortb2.user.id`, else null. -/
def getPublisherUserId (bidParams : Option BidParams) (br : BidderRequest) : Option String :=
  match bidParams.bind (·.sspUserId) with
  | some s =>
    if s ≠ "" then some s
    else
      match ortb2UserId br with
      | some t => if t ≠ "" then some t else none
      | none => none
  | none =>
    match ortb2UserId br with
    | some t => if t ≠ "" then some t else none
    | none => none

/-- The transport wrapper `buildRequests` returns. -/
structure ServerRequest where
  method : String
  url : String
  data : ORTBRequest
  endpointCompression : Bool
  deriving Repr, DecidableEq

/-- `buildRequests`: first the Sync-Parameter Cache update from the
first descriptor's params (skipped when the list is empty or the first
descriptor has no params bag), then the ORTB conversion. The cache
update happens before the conversion, so it persists even when the
conversion throws; the updated cache is returned alongside the result. -/
def buildRequests (validBidRequests : List BidRequest) (br : BidderRequest)
    (sp : SyncParams) : Except JsError ServerRequest × SyncParams :=
  let sp2 :=
    match validBidRequests with
    | [] => sp
    | firstBid :: _ =>
      match firstBid.params with
      | some p =>
        { sspId := p.sspId, siteId := p.siteId,
          sspUserId := getPublisherUserId (some p) br }
      | none => sp
  match toORTB validBidRequests br with
  | .ok request =>
    (.ok { method := "POST", url := ENDPOINT_URL, data := request,
           endpointCompression := true }, sp2)
  | .error e => (.error e, sp2)

/-! ## Response interpreter -/

/-- One raw bid record of the protocol response. -/
structure RawBid where
  id : Option String := none
  impid : Option String := none
  price : Option Int := none
  adm : Option String := none
  w : Option Int := none
  h : Option Int := none
  crid : Option String := none
  adomain : Option (List String) := none
  dealid : Option String := none
  mtype : JsOpt Int := .undef
  deriving Repr, DecidableEq

/-- One seat group; `bid = none` models a missing or non-array `bid`
field. -/
structure SeatBid where
  bid : Option (List RawBid) := none
  deriving Repr, DecidableEq

/-- The response body; `seatbid = none` models a missing or non-array
`seatbid` field. -/
structure ResponseBody where
  cur : Option String := none
  seatbid : Option (List SeatBid) := none
  deriving Repr, DecidableEq

/-- The wrapper the host hands to `interpretResponse`; `body = none`
models a missing body. -/
structure ServerResponse where
  body : Option ResponseBody := none
  deriving Repr, DecidableEq

/-- One normalized bid (`bidResponse`). `mediaType`, `vastXml` and
`dealId` are `none` exactly when the corresponding key is never
assigned. -/
structure BidResponse where
  requestId : Option String
  cpm : Option Int
  currency : String
  width : Option Int
  height : Option Int
  ad : Option String
  creativeId : Option String
  netRevenue : Bool
  ttl : Int
  advertiserDomains : List String
  mediaType : Option String := none
  vastXml : Option String := none
  dealId : Option String := none
  deriving Repr, DecidableEq

/-- `bidResp.cur || DEFAULT_CURRENCY`: the response currency when
truthy (present and non-empty), else the fixed default. -/
def respCurrency (cur : Option String) : String :=
  match cur with
  | some s => if s ≠ "" then s else DEFAULT_CURRENCY
  | none => DEFAULT_CURRENCY

/-- Maps the first raw bid record of a qualifying seat group to one
normalized bid: verbatim field copies, the `mtype` switch (1 → banner,
2 → video plus `vastXml`, other non-null → media type left unset,
null/absent → banner), and `dealId` only for a truthy `dealid`. -/
def mkBidResponse (bidResp : ResponseBody) (bid : RawBid) : BidResponse :=
  let base : BidResponse :=
    { requestId := bid.impid, cpm := bid.price,
      currency := respCurrency bidResp.cur,
      width := bid.w, height := bid.h, ad := bid.adm, creativeId := bid.crid,
      netRevenue := true, ttl := DEFAULT_TTL,
      advertiserDomains := bid.adomain.getD [] }
  let b1 :=
    match bid.mtype with
    | .undef => { base with mediaType := some BANNER }
    | .null => { base with mediaType := some BANNER }
    | .val _ => base
  let b2 :=
    match bid.mtype with
    | .val k =>
      if k = 1 then { b1 with mediaType := some BANNER }
      else if k = 2 then { b1 with mediaType := some VIDEO, vastXml := bid.adm }
      else b1
    | _ => b1
  match bid.dealid with
  | some d => if d ≠ "" then { b2 with dealId := some d } else b2
  | none => b2

/-- `interpretResponse`: empty list unless a body with a `seatbid`
array is present; otherwise one normalized bid per seat group whose
`bid` field is a non-empty array, from that group's first record only,
in seat-group order. -/
def interpretResponse (serverResponse : Option ServerResponse) : List BidResponse :=
  match serverResponse.bind (·.body) with
  | none => []
  | some bidResp =>
    match bidResp.seatbid with
    | none => []
    | some seatbids =>
      seatbids.filterMap (fun sb =>
        match sb.bid with
        | some (bid :: _) => some (mkBidResponse bidResp bid)
        | _ => none)

/-- `Array.isArray(seatbid.bid) && seatbid.bid.length > 0`. -/
def seatQualifies (sb : SeatBid) : Bool :=
  match sb.bid with
  | some (_ :: _) => true
  | _ => false

/-- The first raw bid record of a seat group, when any. -/
def firstRecord (sb : SeatBid) : Option RawBid :=
  sb.bid.bind List.head?

/-! ## Sync URL builder -/

/-- Unreserved characters of `encodeURIComponent`: ASCII letters,
digits, and `- _ . ! ~ * ( )` and the apostrophe (codepoint 39). -/
def isUnreservedURIChar (c : Char) : Bool :=
  let n := c.toNat
  (65 ≤ n && n ≤ 90) || (97 ≤ n && n ≤ 122) || (48 ≤ n && n ≤ 57) ||
  n = 45 || n = 95 || n = 46 || n = 33 || n = 126 || n = 42 || n = 39 ||
  n = 40 || n = 41

/-- The UTF-8 bytes of a codepoint. -/
def utf8Bytes (n : Nat) : List Nat :=
  if n < 128 then [n]
  else if n < 2048 then [192 + n / 64, 128 + n % 64]
  else if n < 65536 then [224 + n / 4096, 128 + (n / 64) % 64, 128 + n % 64]
  else [240 + n / 262144, 128 + (n / 4096) % 64, 128 + (n / 64) % 64, 128 + n % 64]

/-- Uppercase hexadecimal digit. -/
def hexDigit (n : Nat) : Char :=
  if n < 10 then Char.ofNat (48 + n) else Char.ofNat (55 + n)

/-- Percent-encodes one byte. -/
def pctByte (b : Nat) : String :=
  "%" ++ String.mk [hexDigit (b / 16), hexDigit (b % 16)]

/-- JavaScript's `encodeURIComponent`: unreserved characters pass
through, everything else is UTF-8 percent-encoded. -/
def encodeURIComponent (s : String) : String :=
  String.join (s.toList.map (fun c =>
    if isUnreservedURIChar c then String.mk [c]
    else String.join ((utf8Bytes c.toNat).map pctByte)))

/-- `syncOptions` as `getUserSyncs` reads it. -/
structure SyncOptions where
  iframeEnabled : Bool := false
  pixelEnabled : Bool := false
  deriving Repr, DecidableEq

/-- The GPP consent object. -/
structure GppConsent where
  gppString : Option String := none
  applicableSections : Option (List Int) := none
  deriving Repr, DecidableEq

/-- One user-sync descriptor. -/
structure UserSync where
  type : String
  url : String
  deriving Repr, DecidableEq

/-- `Array.prototype.join('&')`. -/
def joinParams : List String → String
  | [] => ""
  | [x] => x
  | x :: y :: xs => x ++ "&" ++ joinParams (y :: xs)

/-- `gppConsent?.gppString && gppConsent?.applicableSections?.length`. -/
def gppApplicable (gpp : Option GppConsent) : Bool :=
  match gpp with
  | some g =>
    (match g.gppString with
     | some s => !(s = "")
     | none => false) &&
    (match g.applicableSections with
     | some l => !l.isEmpty
     | none => false)
  | none => false

/-- The `params` array that `getUserSyncs` pushes onto, in push order:
GDPR pair, USP, GPP pair, the three cached sync parameters, and the
always-present `iframe_enabled` flag. -/
def syncQueryParams (syncOptions : SyncOptions) (gdprConsent : Option GdprConsent)
    (uspConsent : Option String) (gppConsent : Option GppConsent)
    (sp : SyncParams) : List String :=
  (match gdprConsent with
   | some g =>
     ["gdpr=" ++ (if g.gdprApplies then "1" else "0"),
      "gdpr_consent=" ++ encodeURIComponent
        (match g.consentString with
         | .val s => if s ≠ "" then s else ""
         | _ => "")]
   | none => []) ++
  (match uspConsent with
   | some u => if u ≠ "" then ["us_privacy=" ++ encodeURIComponent u] else []
   | none => []) ++
  (if gppApplicable gppConsent then
     match gppConsent with
     | some g =>
       ["gpp=" ++ encodeURIComponent (g.gppString.getD ""),
        "gpp_sid=" ++ encodeURIComponent
          (String.intercalate "," ((g.applicableSections.getD []).map toString))]
     | none => []
   else []) ++
  (match sp.sspId with
   | some s => if s ≠ "" then ["ssp_id=" ++ encodeURIComponent s] else []
   | none => []) ++
  (match sp.siteId with
   | some s => if s ≠ "" then ["ssp_site_id=" ++ encodeURIComponent s] else []
   | none => []) ++
  (match sp.sspUserId with
   | some s => if s ≠ "" then ["ssp_user_id=" ++ encodeURIComponent s] else []
   | none => []) ++
  ["iframe_enabled=" ++ (if syncOptions.iframeEnabled then "true" else "false")]

/-- The fixed base sync endpoint. -/
def syncUrl : String := "https://ads.adsmartx.com/sync"

/-- `getUserSyncs`: nothing when neither sync type is enabled,
otherwise exactly one descriptor whose type prefers iframe and whose
URL is the base endpoint plus the assembled query string; it reads the
Sync-Parameter Cache left by the most recent `buildRequests`. -/
def getUserSyncs (syncOptions : SyncOptions) (_serverResponses : List ServerResponse)
    (gdprConsent : Option GdprConsent) (uspConsent : Option String)
    (gppConsent : Option GppConsent) (sp : SyncParams) : List UserSync :=
  if !syncOptions.iframeEnabled && !syncOptions.pixelEnabled then []
  else
    let syncType := if syncOptions.iframeEnabled then "iframe" else "image"
    let params := syncQueryParams syncOptions gdprConsent uspConsent gppConsent sp
    let queryString := if !params.isEmpty then "?" ++ joinParams params else ""
    [{ type := syncType, url := syncUrl ++ queryString }]

/-! ## Concrete sample inputs used by witnesses -/

/-- A video descriptor with an empty mimes array. -/
def emptyMimesBid : BidRequest :=
  { mediaTypes := some { video := some { mimes := .arr [], w := .null, h := .null } } }

/-- A plain banner descriptor. -/
def bannerBid : BidRequest :=
  { bidId := some "1abc",
    mediaTypes := some { banner := some { sizes := some [[300, 250]] } } }

/-- A descriptor declaring both a banner and a video spec. -/
def bothSpecBid : BidRequest :=
  { mediaTypes := some
      { banner := some { sizes := some [[300, 250]] },
        video := some { mimes := .arr ["video/mp4"], w := .undef, h := .undef } } }

/-- A raw bid record with markup-type code 1. -/
def record1 : RawBid := { impid := some "1abc", price := some 2, mtype := .val 1 }

/-- A second raw bid record in the same seat group (ignored by the
interpreter). -/
def record2 : RawBid := { impid := some "zzz", price := some 9, mtype := .val 1 }

/-- A seat group with an empty bid list. -/
def emptySeat : SeatBid := { bid := some [] }

/-- A seat group holding two raw bid records. -/
def twoRecordSeat : SeatBid := { bid := some [record1, record2] }

/-- A response body with one empty and one two-record seat group. -/
def sampleBody : ResponseBody := { seatbid := some [emptySeat, twoRecordSeat] }

/-- A raw video bid record. -/
def vastRecord : RawBid := { adm := some "<VAST/>", mtype := .val 2 }

/-- A descriptor whose params carry testMode = 1, an sspId and a
siteId. -/
def scanBid : BidRequest :=
  { mediaTypes := some { banner := some { sizes := some [[300, 250]] } },
    params := some { testMode := some 1, sspId := some "ssp123", siteId := some "site456" } }

/-- A context carrying a GDPR consent object with an undefined consent
string. -/
def brGdprUndef : BidderRequest :=
  { gdprConsent := some { gdprApplies := false, consentString := .undef } }

/-- A context whose bids array is `[scanBid]`. -/
def brScan : BidderRequest := { bids := some [scanBid] }

/-- A descriptor whose params carry sspUserId "A". -/
def bidA : BidRequest :=
  { mediaTypes := some { banner := some { sizes := some [[300, 250]] } },
    params := some { sspUserId := some "A" } }

/-- A context whose first-party data carries user id "B". -/
def brB : BidderRequest := { ortb2 := some { user := some { id := some "B" } } }

/-- A previously stored Sync-Parameter Cache. -/
def spXYZ : SyncParams := { sspId := some "X", siteId := some "Y", sspUserId := some "Z" }

/-! ## Theorems: validator -/

/-- `badDim` holds exactly when the dimension is present, non-null and ≤ 0. -/
theorem badDim_iff (x : JsOpt Int) : badDim x = true ↔ ∃ w, x = .val w ∧ w ≤ 0 := by
  cases x <;> simp [badDim]

/-- `mimesOk` fails exactly on a missing, non-list or empty mimes value. -/
theorem mimesOk_eq_false_iff (m : MimesVal) :
    mimesOk m = false ↔ (m = .missing ∨ m = .nonList ∨ m = .arr []) := by
  cases m <;> simp [mimesOk]

/-- C1. For every descriptor declaring a video spec, `validate` returns
false iff mimes is missing/non-list/empty, or width is present,
non-null and ≤ 0, or height is present, non-null and ≤ 0; null
width/height with valid mimes is accepted, and a descriptor declaring
no video spec (including one with no mediaTypes at all) is always
accepted. -/
theorem c1_validate_video (bid : BidRequest) :
    (∀ mt video, bid.mediaTypes = some mt → mt.video = some video →
      (isBidRequestValid bid = false ↔
        (video.mimes = .missing ∨ video.mimes = .nonList ∨ video.mimes = .arr []) ∨
        (∃ w, video.w = .val w ∧ w ≤ 0) ∨
        (∃ h, video.h = .val h ∧ h ≤ 0))) ∧
    ((∀ mt, bid.mediaTypes = some mt → mt.video = none) →
      isBidRequestValid bid = true) := by
  constructor
  · intro mt video hmt hv
    have key : isBidRequestValid bid = false ↔
        (mimesOk video.mimes = false ∨ badDim video.w = true ∨ badDim video.h = true) := by
      cases hmo : mimesOk video.mimes <;> cases hbw : badDim video.w <;>
        cases hbh : badDim video.h <;>
          simp [isBidRequestValid, hmt, hv, hmo, hbw, hbh]
    rw [key, mimesOk_eq_false_iff, badDim_iff, badDim_iff]
  · intro hnone
    simp only [isBidRequestValid]
    cases hmt : bid.mediaTypes with
    | none => rfl
    | some mt => simp [hnone mt hmt]

/-- Witness for C1 at a concrete descriptor: a video spec with empty
mimes is rejected, via the first conjunct of the theorem. -/
theorem c1_validate_video_witness :
    isBidRequestValid emptyMimesBid = false := by
  have h := (c1_validate_video emptyMimesBid).1
    { video := some { mimes := .arr [], w := .null, h := .null } }
    { mimes := .arr [], w := .null, h := .null } rfl rfl
  exact h.mpr (Or.inl (Or.inr (Or.inr rfl)))

/-! ## Theorems: request builder -/

/-- `applyBidfloor` never touches the banner sub-object. -/
theorem applyBidfloor_banner (i : Imp) (p : Option BidParams) :
    (applyBidfloor i p).banner = i.banner := by
  unfold applyBidfloor
  rcases p with _ | ⟨bf, tm, ss, si, su⟩
  · rfl
  · rcases bf with _ | f
    · rfl
    · by_cases hf : f = 0 <;> simp [hf]

/-- `applyBidfloor` never touches the video sub-object. -/
theorem applyBidfloor_video (i : Imp) (p : Option BidParams) :
    (applyBidfloor i p).video = i.video := by
  unfold applyBidfloor
  rcases p with _ | ⟨bf, tm, ss, si, su⟩
  · rfl
  · rcases bf with _ | f
    · rfl
    · by_cases hf : f = 0 <;> simp [hf]

/-- A descriptor whose `mediaTypes` object exists and whose banner
spec, when present, carries a `sizes` list, always yields an
impression. -/
theorem impFn_ok (b : BidRequest) (mt : MediaTypes) (hmt : b.mediaTypes = some mt)
    (hb : ∀ bs, mt.banner = some bs → ∃ sizes, bs.sizes = some sizes) :
    ∃ i, impFn b = .ok i := by
  unfold impFn
  rw [hmt]
  dsimp only
  cases hban : mt.banner with
  | some bs =>
    obtain ⟨sizes, hs⟩ := hb bs hban
    dsimp only
    rw [hs]
    exact ⟨_, rfl⟩
  | none =>
    dsimp only
    cases mt.video <;> exact ⟨_, rfl⟩

/-- Impression construction over a whole list succeeds when it succeeds
on every element. -/
theorem mapImps_ok (bids : List BidRequest)
    (h : ∀ b ∈ bids, ∃ i, impFn b = .ok i) :
    ∃ imps, mapImps bids = .ok imps := by
  induction bids with
  | nil => exact ⟨[], rfl⟩
  | cons b bs ih =>
    obtain ⟨i, hi⟩ := h b (List.mem_cons_self _ _)
    obtain ⟨imps, his⟩ := ih (fun x hx => h x (List.mem_cons_of_mem _ hx))
    refine ⟨i :: imps, ?_⟩
    simp only [mapImps, hi, his]
    rfl

/-- C2 counterexample: a descriptor with no `mediaTypes` at all is
accepted by `validate`, yet building a request from it throws a
`TypeError` instead of returning a request. -/
theorem c2_build_counterexample :
    isBidRequestValid {} = true ∧
    (buildRequests [{}] {} {}).1 = Except.error JsError.typeError :=
  ⟨rfl, rfl⟩

/-- C2 (amended). For every descriptor list in which each descriptor is
accepted by `validate`, carries a `mediaTypes` object, and carries a
`sizes` list whenever it declares a banner spec, and for every auction
context, `build` returns a request and never throws. -/
theorem c2_build_total (bids : List BidRequest) (br : BidderRequest) (sp : SyncParams)
    (hv : ∀ b ∈ bids, isBidRequestValid b = true)
    (hm : ∀ b ∈ bids, ∃ mt, b.mediaTypes = some mt ∧
      (∀ bs, mt.banner = some bs → ∃ sizes, bs.sizes = some sizes)) :
    ∃ r, (buildRequests bids br sp).1 = Except.ok r := by
  have himps : ∃ imps, mapImps bids = .ok imps := by
    refine mapImps_ok bids (fun b hb => ?_)
    obtain ⟨mt, hmt, hbs⟩ := hm b hb
    exact impFn_ok b mt hmt hbs
  obtain ⟨imps, himps⟩ := himps
  unfold buildRequests toORTB
  rw [himps]
  exact ⟨_, rfl⟩

/-- Witness for C2's amended theorem at a concrete banner descriptor. -/
theorem c2_build_total_witness :
    ∃ r, (buildRequests [bannerBid] {} {}).1 = Except.ok r := by
  refine c2_build_total [bannerBid] {} {} ?_ ?_
  · intro b hb
    simp only [List.mem_singleton] at hb
    subst hb
    rfl
  · intro b hb
    simp only [List.mem_singleton] at hb
    subst hb
    exact ⟨_, rfl, fun bs hbs => by cases hbs; exact ⟨_, rfl⟩⟩

/-- C5. An impression built from a descriptor never carries both a
banner and a video sub-object, and when the descriptor declares both
format specs, the impression carries a banner key and no video key. -/
theorem c5_banner_video_exclusive (bid : BidRequest) (i : Imp) (h : impFn bid = .ok i) :
    (¬(i.banner.isSome = true ∧ i.video.isSome = true)) ∧
    (∀ mt bsp vsp, bid.mediaTypes = some mt → mt.banner = some bsp →
      mt.video = some vsp → i.banner.isSome = true ∧ i.video = none) := by
  obtain ⟨bidId, mtypes, params⟩ := bid
  rcases mtypes with _ | ⟨mban, mvid⟩
  · simp [impFn] at h
  · rcases mban with _ | ⟨bsz⟩
    · rcases mvid with _ | v
      · simp only [impFn, Except.ok.injEq] at h
        subst h
        constructor
        · intro ⟨_, hv2⟩
          rw [applyBidfloor_video] at hv2
          simp [buildImp] at hv2
        · intro mt2 bsp vsp hmt2 hb2 _
          cases hmt2
          cases hb2
      · simp only [impFn, Except.ok.injEq] at h
        subst h
        constructor
        · intro ⟨hb2, _⟩
          simp only [Imp.banner] at hb2
          rw [applyBidfloor_banner] at hb2
          simp [buildImp] at hb2
        · intro mt2 bsp vsp hmt2 hb2 _
          cases hmt2
          cases hb2
    · rcases bsz with _ | sizes
      · simp [impFn] at h
      · simp only [impFn, Except.ok.injEq] at h
        subst h
        constructor
        · intro ⟨_, hv2⟩
          simp only [Imp.video] at hv2
          rw [applyBidfloor_video] at hv2
          simp [buildImp] at hv2
        · intro mt2 bsp vsp hmt2 _ _
          refine ⟨rfl, ?_⟩
          rw [applyBidfloor_video]
          rfl

/-- Witness for C5 at a concrete descriptor declaring both banner and
video specs: the built impression has a banner key and no video key. -/
theorem c5_banner_video_exclusive_witness :
    ∃ i, impFn bothSpecBid = .ok i ∧ i.banner.isSome = true ∧ i.video = none := by
  refine ⟨_, rfl, ?_⟩
  exact (c5_banner_video_exclusive bothSpecBid _ rfl).2
    { banner := some { sizes := some [[300, 250]] },
      video := some { mimes := .arr ["video/mp4"], w := .undef, h := .undef } }
    { sizes := some [[300, 250]] }
    { mimes := .arr ["video/mp4"], w := .undef, h := .undef } rfl rfl rfl

/-! ## Theorems: response interpreter -/

/-- The interpreter's per-group loop equals: keep the qualifying seat
groups in order and map each one's first record. -/
theorem interpret_loop_eq (b : ResponseBody) (sbs : List SeatBid) :
    (sbs.filterMap (fun sb =>
      match sb.bid with
      | some (bid :: _) => some (mkBidResponse b bid)
      | _ => none)) =
    (sbs.filter seatQualifies).filterMap
      (fun sb => (firstRecord sb).map (mkBidResponse b)) := by
  induction sbs with
  | nil => rfl
  | cons sb rest ih =>
    cases hb : sb.bid with
    | none =>
      simp [List.filterMap_cons, List.filter_cons, seatQualifies, hb, ih]
    | some l =>
      cases l with
      | nil =>
        simp [List.filterMap_cons, List.filter_cons, seatQualifies, hb, ih]
      | cons r rs =>
        simp [List.filterMap_cons, List.filter_cons, seatQualifies, firstRecord, hb, ih]

/-- C3. `interpret` returns the empty list (without throwing) when the
response, its body, or a seatbid array is absent; otherwise it returns
exactly one normalized bid per seat group whose `bid` field is a
non-empty list, mapped from only that group's first record, in
seat-group order; groups whose `bid` field is missing, not a list, or
empty contribute nothing. -/
theorem c3_interpret_shape (resp : Option ServerResponse) :
    ((resp = none ∨ (∃ r, resp = some r ∧ r.body = none) ∨
      (∃ r b, resp = some r ∧ r.body = some b ∧ b.seatbid = none)) →
      interpretResponse resp = []) ∧
    (∀ r b sbs, resp = some r → r.body = some b → b.seatbid = some sbs →
      interpretResponse resp =
        (sbs.filter seatQualifies).filterMap
          (fun sb => (firstRecord sb).map (mkBidResponse b))) := by
  constructor
  · rintro (rfl | ⟨r, rfl, hb⟩ | ⟨r, b, rfl, hb, hs⟩)
    · rfl
    · simp [interpretResponse, hb]
    · simp [interpretResponse, hb, hs]
  · rintro r b sbs rfl hb hs
    simp only [interpretResponse, Option.bind, hb, hs]
    exact interpret_loop_eq b sbs

/-- Witness for C3 at a concrete response: an empty seat group
contributes nothing and a two-record group yields one bid from its
first record. -/
theorem c3_interpret_shape_witness :
    interpretResponse (some { body := some sampleBody }) =
      (([emptySeat, twoRecordSeat].filter seatQualifies).filterMap
        (fun sb => (firstRecord sb).map (mkBidResponse sampleBody))) :=
  (c3_interpret_shape _).2 _ _ _ rfl rfl rfl

/-- C4. For every raw bid record the interpreter accepts, the media
type resolution of its normalized bid follows the markup-type code:
1 → banner, 2 → video plus the VAST field mirroring the markup,
null/absent → banner, any other non-null code → media type left
unset (the normalized bid is still produced, cf. C3). -/
theorem c4_media_type (b : ResponseBody) (bid : RawBid) :
    (bid.mtype = .val 1 → (mkBidResponse b bid).mediaType = some BANNER) ∧
    (bid.mtype = .val 2 → (mkBidResponse b bid).mediaType = some VIDEO ∧
      (mkBidResponse b bid).vastXml = bid.adm) ∧
    ((bid.mtype = .null ∨ bid.mtype = .undef) →
      (mkBidResponse b bid).mediaType = some BANNER) ∧
    (∀ k, bid.mtype = .val k → k ≠ 1 → k ≠ 2 →
      (mkBidResponse b bid).mediaType = none) := by
  refine ⟨?_, ?_, ?_, ?_⟩
  · intro h
    simp only [mkBidResponse, h]
    cases hd : bid.dealid with
    | none => simp
    | some d =>
      by_cases hde : d = "" <;> simp [hde]
  · intro h
    simp only [mkBidResponse, h]
    cases hd : bid.dealid with
    | none => simp
    | some d =>
      by_cases hde : d = "" <;> simp [hde]
  · rintro (h | h) <;>
      · simp only [mkBidResponse, h]
        cases hd : bid.dealid with
        | none => simp
        | some d =>
          by_cases hde : d = "" <;> simp [hde]
  · intro k h hk1 hk2
    simp only [mkBidResponse, h]
    cases hd : bid.dealid with
    | none => simp [hk1, hk2]
    | some d =>
      by_cases hde : d = "" <;> simp [hde, hk1, hk2]

/-- Witness for C4 at a concrete record with markup-type code 2. -/
theorem c4_media_type_witness :
    (mkBidResponse {} vastRecord).mediaType = some VIDEO ∧
    (mkBidResponse {} vastRecord).vastXml = some "<VAST/>" :=
  (c4_media_type {} vastRecord).2.1 rfl

/-! ## Theorems: top-level request assembly -/

/-- The extension scans never touch the regulatory block. -/
theorem applyExtScans_regs (req : ORTBRequest) (br : BidderRequest) :
    (applyExtScans req br).regs = req.regs := by
  unfold applyExtScans
  cases br.bids with
  | none => rfl
  | some bids =>
    by_cases h1 : bids.any hasTestMode1 <;>
      cases h2 : bids.find? hasSspId <;>
        cases h3 : bids.find? hasSiteId <;>
          simp [h1, h2, h3]

/-- The extension scans never touch the user block. -/
theorem applyExtScans_user (req : ORTBRequest) (br : BidderRequest) :
    (applyExtScans req br).user = req.user := by
  unfold applyExtScans
  cases br.bids with
  | none => rfl
  | some bids =>
    by_cases h1 : bids.any hasTestMode1 <;>
      cases h2 : bids.find? hasSspId <;>
        cases h3 : bids.find? hasSiteId <;>
          simp [h1, h2, h3]

/-- The GDPR block never touches the extension block. -/
theorem applyGdpr_ext (req : ORTBRequest) (br : BidderRequest) :
    (applyGdpr req br).ext = req.ext := by
  unfold applyGdpr
  cases br.gdprConsent <;> rfl

/-- The USP block never touches the extension block. -/
theorem applyUsp_ext (req : ORTBRequest) (br : BidderRequest) :
    (applyUsp req br).ext = req.ext := by
  unfold applyUsp
  cases br.uspConsent with
  | none => rfl
  | some u => by_cases hu : u = "" <;> simp [hu]

/-- The USP block never touches the user block. -/
theorem applyUsp_user (req : ORTBRequest) (br : BidderRequest) :
    (applyUsp req br).user = req.user := by
  unfold applyUsp
  cases br.uspConsent with
  | none => rfl
  | some u => by_cases hu : u = "" <;> simp [hu]

/-- The USP block preserves an existing regulatory block's gdpr flag. -/
theorem applyUsp_regs_gdpr (req : ORTBRequest) (br : BidderRequest) (r : Regs)
    (h : req.regs = some r) :
    ∃ r2, (applyUsp req br).regs = some r2 ∧ r2.ext.gdpr = r.ext.gdpr := by
  unfold applyUsp
  cases br.uspConsent with
  | none => exact ⟨r, h, rfl⟩
  | some u =>
    by_cases hu : u = ""
    · simp only [hu, ne_eq, not_true_eq_false, if_false]
      exact ⟨r, h, rfl⟩
    · simp only [ne_eq, hu, not_false_eq_true, if_true, h, Option.getD_some]
      exact ⟨_, rfl, rfl⟩

/-- C6. Whenever the context carries a GDPR consent object, `build`
sets a regulatory block with gdpr = 1 if `gdprApplies` is truthy else
0, and a user block whose consent field holds the raw consent string;
when the consent string is undefined, the user block and its consent
key are still created (the key carries the undefined marker) rather
than being omitted. -/
theorem c6_gdpr_blocks (imps : List Imp) (br : BidderRequest) (g : GdprConsent)
    (h : br.gdprConsent = some g) :
    (∃ r, (requestFn imps br).regs = some r ∧
      r.ext.gdpr = some (if g.gdprApplies then 1 else 0)) ∧
    (requestFn imps br).user = some { ext := { consent := g.consentString } } := by
  unfold requestFn
  have hregs : (applyGdpr (applyExtScans (setTopLevel imps br) br) br).regs =
      some { ext := { gdpr := some (if g.gdprApplies then 1 else 0) } } := by
    unfold applyGdpr
    rw [h]
  have huser : (applyGdpr (applyExtScans (setTopLevel imps br) br) br).user =
      some { ext := { consent := g.consentString } } := by
    unfold applyGdpr
    rw [h]
  obtain ⟨r2, hr2, hg2⟩ := applyUsp_regs_gdpr _ br _ hregs
  exact ⟨⟨r2, hr2, by rw [hg2]⟩, by rw [applyUsp_user, huser]⟩

/-- Witness for C6 at a concrete context whose consent string is
undefined: gdpr = 0 and the user block is present with an
undefined-valued consent key. -/
theorem c6_gdpr_blocks_witness :
    (∃ r, (requestFn [] brGdprUndef).regs = some r ∧ r.ext.gdpr = some 0) ∧
    (requestFn [] brGdprUndef).user = some { ext := { consent := JsOpt.undef } } := by
  have h := c6_gdpr_blocks [] brGdprUndef
    { gdprApplies := false, consentString := .undef } rfl
  simpa using h

/-- The three extension scans, on a request whose extension block does
not yet exist: the resulting fields realize exactly the any/find scans
over the context's bids array. -/
theorem applyExtScans_ext (req : ORTBRequest) (br : BidderRequest) (bids : List BidRequest)
    (hb : br.bids = some bids) (he : req.ext = none) :
    ((applyExtScans req br).ext.bind (·.test) =
       (if bids.any hasTestMode1 then some 1 else none)) ∧
    ((applyExtScans req br).ext.bind (·.sspId) =
       (bids.find? hasSspId).bind (fun b => b.params.bind (·.sspId))) ∧
    ((applyExtScans req br).ext.bind (·.siteId) =
       (bids.find? hasSiteId).bind (fun b => b.params.bind (·.siteId))) := by
  unfold applyExtScans
  rw [hb]
  by_cases h1 : bids.any hasTestMode1 <;>
    cases h2 : bids.find? hasSspId <;>
      cases h3 : bids.find? hasSiteId <;>
        simp [h1, h2, h3, he, extOrEmpty]

/-- C7. With the batch passed as the context's bids array, `build` sets
ext.test = 1 iff any descriptor of the whole batch carries
testMode === 1; independently it copies the sspId of the first
descriptor in list order with a non-empty sspId, and likewise for
siteId; each scan is first-match-wins over the whole batch, and a scan
with no match leaves its extension field absent. -/
theorem c7_ext_scans (imps : List Imp) (br : BidderRequest) (bids : List BidRequest)
    (hb : br.bids = some bids) :
    ((requestFn imps br).ext.bind (·.test) =
       (if bids.any hasTestMode1 then some 1 else none)) ∧
    ((requestFn imps br).ext.bind (·.sspId) =
       (bids.find? hasSspId).bind (fun b => b.params.bind (·.sspId))) ∧
    ((requestFn imps br).ext.bind (·.siteId) =
       (bids.find? hasSiteId).bind (fun b => b.params.bind (·.siteId))) := by
  have hreq : (requestFn imps br).ext = (applyExtScans (setTopLevel imps br) br).ext := by
    unfold requestFn
    rw [applyUsp_ext, applyGdpr_ext]
  rw [hreq]
  exact applyExtScans_ext (setTopLevel imps br) br bids hb rfl

/-- Witness for C7 at a concrete context whose single bid carries
testMode 1, sspId "ssp123" and siteId "site456". -/
theorem c7_ext_scans_witness :
    ((requestFn [] brScan).ext.bind (·.test) = some 1) ∧
    ((requestFn [] brScan).ext.bind (·.sspId) = some "ssp123") ∧
    ((requestFn [] brScan).ext.bind (·.siteId) = some "site456") := by
  obtain ⟨h1, h2, h3⟩ := c7_ext_scans [] brScan [scanBid] rfl
  refine ⟨?_, ?_, ?_⟩
  · rw [h1]
    decide
  · rw [h2]
    decide
  · rw [h3]
    decide

/-- With no bids array in the context, the scan block is a no-op. -/
theorem applyExtScans_noBids (req : ORTBRequest) (br : BidderRequest)
    (h : br.bids = none) : applyExtScans req br = req := by
  unfold applyExtScans
  rw [h]

/-- C9. The three extension fields come solely from the context's bids
array: when the context has no bids array, a successful `build` yields
a request whose extension block is absent, regardless of the testMode,
sspId or siteId values carried by the descriptor-list argument. -/
theorem c9_ext_needs_bids (bids : List BidRequest) (br : BidderRequest) (sp : SyncParams)
    (r : ServerRequest) (hb : br.bids = none)
    (hok : (buildRequests bids br sp).1 = .ok r) :
    r.data.ext = none := by
  unfold buildRequests at hok
  cases ht : toORTB bids br with
  | error e =>
    rw [ht] at hok
    simp at hok
  | ok q =>
    rw [ht] at hok
    simp only [Except.ok.injEq] at hok
    have hq : q.ext = none := by
      cases hm : mapImps bids with
      | error e =>
        unfold toORTB at ht
        rw [hm] at ht
        simp at ht
      | ok imps =>
        unfold toORTB at ht
        rw [hm] at ht
        have ht2 : (Except.ok (requestFn imps br) : Except JsError ORTBRequest) =
            Except.ok q := ht
        injection ht2 with ht2
        rw [← ht2]
        unfold requestFn
        rw [applyUsp_ext, applyGdpr_ext, applyExtScans_noBids _ _ hb]
        rfl
    rw [← hok]
    exact hq

/-- Witness for C9: the single descriptor carries testMode, sspId and
siteId, yet with no bids array in the context the built request has no
extension block. -/
theorem c9_ext_needs_bids_witness :
    ∃ r, (buildRequests [scanBid] {} {}).1 = .ok r ∧ r.data.ext = none := by
  refine ⟨_, rfl, ?_⟩
  exact c9_ext_needs_bids [scanBid] {} {} _ rfl rfl

/-! ## Theorems: sync URL builder and the Sync-Parameter Cache -/

/-- Every element of a list is a substring of its ampersand join. -/
theorem joinParams_substring (l : List String) (x : String) (hx : x ∈ l) :
    ∃ pre post, joinParams l = pre ++ x ++ post := by
  induction l with
  | nil => cases hx
  | cons a rest ih =>
    rcases List.mem_cons.mp hx with rfl | hx2
    · cases rest with
      | nil => exact ⟨"", "", by simp [joinParams]⟩
      | cons y ys =>
        refine ⟨"", "&" ++ joinParams (y :: ys), ?_⟩
        simp [joinParams, String.append_assoc]
    · obtain ⟨pre, post, hp⟩ := ih hx2
      cases rest with
      | nil => simp at hx2
      | cons y ys =>
        refine ⟨a ++ "&" ++ pre, post, ?_⟩
        simp only [joinParams]
        rw [hp]
        simp [String.append_assoc]

/-- A truthy cached sspId contributes its query parameter. -/
theorem sspId_mem_syncQueryParams (so : SyncOptions) (g : Option GdprConsent)
    (u : Option String) (gpp : Option GppConsent) (sp : SyncParams) (s : String)
    (h : sp.sspId = some s) (hne : s ≠ "") :
    ("ssp_id=" ++ encodeURIComponent s) ∈ syncQueryParams so g u gpp sp := by
  simp [syncQueryParams, h, hne]

/-- A truthy cached siteId contributes its query parameter. -/
theorem siteId_mem_syncQueryParams (so : SyncOptions) (g : Option GdprConsent)
    (u : Option String) (gpp : Option GppConsent) (sp : SyncParams) (s : String)
    (h : sp.siteId = some s) (hne : s ≠ "") :
    ("ssp_site_id=" ++ encodeURIComponent s) ∈ syncQueryParams so g u gpp sp := by
  simp [syncQueryParams, h, hne]

/-- A truthy cached sspUserId contributes its query parameter. -/
theorem sspUserId_mem_syncQueryParams (so : SyncOptions) (g : Option GdprConsent)
    (u : Option String) (gpp : Option GppConsent) (sp : SyncParams) (s : String)
    (h : sp.sspUserId = some s) (hne : s ≠ "") :
    ("ssp_user_id=" ++ encodeURIComponent s) ∈ syncQueryParams so g u gpp sp := by
  simp [syncQueryParams, h, hne]

/-- With iframe syncing enabled, `getUserSyncs` returns one descriptor
whose URL contains every assembled query parameter as a substring. -/
theorem getUserSyncs_url_contains (srs : List ServerResponse) (g : Option GdprConsent)
    (u : Option String) (gpp : Option GppConsent) (sp : SyncParams) (x : String)
    (hx : x ∈ syncQueryParams { iframeEnabled := true } g u gpp sp) :
    ∃ sync pre post,
      getUserSyncs { iframeEnabled := true } srs g u gpp sp = [sync] ∧
      sync.url = pre ++ x ++ post := by
  obtain ⟨pre, post, hp⟩ := joinParams_substring _ x hx
  have hne : syncQueryParams { iframeEnabled := true } g u gpp sp ≠ [] :=
    List.ne_nil_of_mem hx
  have hemp : (syncQueryParams { iframeEnabled := true } g u gpp sp).isEmpty = false := by
    cases hq : syncQueryParams { iframeEnabled := true } g u gpp sp with
    | nil => exact absurd hq hne
    | cons a l => rfl
  refine ⟨{ type := "iframe",
            url := syncUrl ++
              ("?" ++ joinParams (syncQueryParams { iframeEnabled := true } g u gpp sp)) },
          syncUrl ++ "?" ++ pre, post, ?_, ?_⟩
  · simp [getUserSyncs, hemp]
  · dsimp only
    rw [hp]
    simp [String.append_assoc]

/-- After `build` on a batch whose first descriptor carries a params
bag, the Sync-Parameter Cache holds that bag's values. -/
theorem buildRequests_sp_first (bids : List BidRequest) (br : BidderRequest)
    (sp : SyncParams) (first : BidRequest) (rest : List BidRequest) (p : BidParams)
    (h1 : bids = first :: rest) (h2 : first.params = some p) :
    (buildRequests bids br sp).2 =
      { sspId := p.sspId, siteId := p.siteId,
        sspUserId := getPublisherUserId (some p) br } := by
  subst h1
  unfold buildRequests
  cases ht : toORTB (first :: rest) br <;> simp [h2, ht]

/-- C8. `build` stores sspId, siteId and sspUserId from the first
descriptor's params into the Sync-Parameter Cache, where sspUserId
resolves to params.sspUserId when present (and truthy), else to the
context's ortb2.user.id, else to nothing; consequently a later
`buildSyncs` with syncing enabled emits a URL containing
`ssp_user_id=` followed by the params-level identifier even when the
context carries a different first-party id. -/
theorem c8_sync_cache (bids : List BidRequest) (br : BidderRequest) (sp : SyncParams)
    (first : BidRequest) (rest : List BidRequest) (p : BidParams)
    (h1 : bids = first :: rest) (h2 : first.params = some p) :
    ((buildRequests bids br sp).2.sspId = p.sspId ∧
     (buildRequests bids br sp).2.siteId = p.siteId ∧
     (∀ s, p.sspUserId = some s → s ≠ "" →
        (buildRequests bids br sp).2.sspUserId = some s) ∧
     (∀ t, p.sspUserId = none → ortb2UserId br = some t → t ≠ "" →
        (buildRequests bids br sp).2.sspUserId = some t) ∧
     (p.sspUserId = none → ortb2UserId br = none →
        (buildRequests bids br sp).2.sspUserId = none)) ∧
    (∀ s, p.sspUserId = some s → s ≠ "" → ∀ srs gC uC gppC,
      ∃ sync pre post,
        getUserSyncs { iframeEnabled := true } srs gC uC gppC
          (buildRequests bids br sp).2 = [sync] ∧
        sync.url = pre ++ ("ssp_user_id=" ++ encodeURIComponent s) ++ post) := by
  have hsp := buildRequests_sp_first bids br sp first rest p h1 h2
  refine ⟨⟨?_, ?_, ?_, ?_, ?_⟩, ?_⟩
  · rw [hsp]
  · rw [hsp]
  · intro s hs hne
    rw [hsp]
    simp [getPublisherUserId, hs, hne]
  · intro t hs ho hne
    rw [hsp]
    simp [getPublisherUserId, hs, ho, hne]
  · intro hs ho
    rw [hsp]
    simp [getPublisherUserId, hs, ho]
  · intro s hs hne srs gC uC gppC
    have hmem : ("ssp_user_id=" ++ encodeURIComponent s) ∈
        syncQueryParams { iframeEnabled := true } gC uC gppC
          (buildRequests bids br sp).2 := by
      refine sspUserId_mem_syncQueryParams _ gC uC gppC _ s ?_ hne
      rw [hsp]
      simp [getPublisherUserId, hs, hne]
    exact getUserSyncs_url_contains srs gC uC gppC _ _ hmem

/-- Witness for C8: with params sspUserId "A" and the context carrying
ortb2.user.id "B", the sync URL contains ssp_user_id=A. -/
theorem c8_sync_cache_witness :
    ∃ sync pre post,
      getUserSyncs { iframeEnabled := true } [] none none none
        (buildRequests [bidA] brB {}).2 = [sync] ∧
      sync.url = pre ++ ("ssp_user_id=" ++ encodeURIComponent "A") ++ post :=
  (c8_sync_cache [bidA] brB {} bidA [] { sspUserId := some "A" } rfl rfl).2
    "A" rfl (by decide) [] none none none

/-- C10. When the batch is non-empty but its first descriptor has no
params bag, `build` leaves all three fields of the Sync-Parameter Cache
unchanged, so a later `buildSyncs` emits ssp_id, ssp_site_id and
ssp_user_id from whatever values an earlier `build` stored. -/
theorem c10_cache_preserved (bids : List BidRequest) (br : BidderRequest) (sp : SyncParams)
    (first : BidRequest) (rest : List BidRequest)
    (h1 : bids = first :: rest) (h2 : first.params = none) :
    ((buildRequests bids br sp).2 = sp) ∧
    (∀ a b c, sp.sspId = some a → a ≠ "" → sp.siteId = some b → b ≠ "" →
      sp.sspUserId = some c → c ≠ "" → ∀ srs,
      ∃ sync pre1 post1 pre2 post2 pre3 post3,
        getUserSyncs { iframeEnabled := true } srs none none none
          (buildRequests bids br sp).2 = [sync] ∧
        sync.url = pre1 ++ ("ssp_id=" ++ encodeURIComponent a) ++ post1 ∧
        sync.url = pre2 ++ ("ssp_site_id=" ++ encodeURIComponent b) ++ post2 ∧
        sync.url = pre3 ++ ("ssp_user_id=" ++ encodeURIComponent c) ++ post3) := by
  have hsp : (buildRequests bids br sp).2 = sp := by
    subst h1
    unfold buildRequests
    cases ht : toORTB (first :: rest) br <;> simp [h2, ht]
  refine ⟨hsp, ?_⟩
  intro a b c ha hane hb hbne hc hcne srs
  obtain ⟨s1, p1, q1, hs1, hu1⟩ := getUserSyncs_url_contains srs none none none sp _
    (sspId_mem_syncQueryParams _ none none none sp a ha hane)
  obtain ⟨s2, p2, q2, hs2, hu2⟩ := getUserSyncs_url_contains srs none none none sp _
    (siteId_mem_syncQueryParams _ none none none sp b hb hbne)
  obtain ⟨s3, p3, q3, hs3, hu3⟩ := getUserSyncs_url_contains srs none none none sp _
    (sspUserId_mem_syncQueryParams _ none none none sp c hc hcne)
  rw [hs1] at hs2 hs3
  have e2 : s1 = s2 := by simpa using hs2
  have e3 : s1 = s3 := by simpa using hs3
  refine ⟨s1, p1, q1, p2, q2, p3, q3, ?_, hu1, ?_, ?_⟩
  · rw [hsp]
    exact hs1
  · rw [e2]
    exact hu2
  · rw [e3]
    exact hu3

/-- Witness for C10: a first descriptor without params preserves a
previously stored cache, whose three values all appear in the sync
URL. -/
theorem c10_cache_preserved_witness :
    ∃ sync pre1 post1 pre2 post2 pre3 post3,
      getUserSyncs { iframeEnabled := true } [] none none none
        (buildRequests [{}] {} spXYZ).2 = [sync] ∧
      sync.url = pre1 ++ ("ssp_id=" ++ encodeURIComponent "X") ++ post1 ∧
      sync.url = pre2 ++ ("ssp_site_id=" ++ encodeURIComponent "Y") ++ post2 ∧
      sync.url = pre3 ++ ("ssp_user_id=" ++ encodeURIComponent "Z") ++ post3 :=
  (c10_cache_preserved [{}] {} spXYZ {} [] rfl rfl).2
    "X" "Y" "Z" rfl (by decide) rfl (by decide) rfl (by decide) []

end AdsmartX
